import Mathlib

/-!
Shallow embedding of the endpoint-selection, health-tracking and
retry-driven execution engine of the `documentdb` Go client
(`src/unnamed/part_000`).  Go `int`/`int64` values (status codes, attempt
counters, Unix timestamps, retry counts) are modelled as `Int`; endpoint
lists as `List`; the HTTP transport of one logical operation as a function
from the attempt number to `Option Int` (`none` is a transport-level
failure, `some s` a response with status code `s`); mutation of the
endpoint pointed to by a Go pointer becomes explicit state passing.
-/

namespace DocumentDB

/-- Embeds the Go struct `CosmosEndpoint`: name, URL, default flag,
availability flag and the Unix timestamp of the moment the endpoint was
quarantined (`0` when available). -/
structure CosmosEndpoint where
  EndpointName : String
  EndpointURL : String
  IsDefaultEndpoint : Bool
  IsUnavailable : Bool
  UnavailableTimestamp : Int
  deriving DecidableEq, Repr

/-- Embeds the retry-related configuration: `RetryCount` and
`EndpointUnavailableTimeSec` from `Config.RetryOptions`. -/
structure RetryOptions where
  RetryCount : Int
  EndpointUnavailableTimeSec : Int
  deriving DecidableEq, Repr

/-- Embeds the region-related configuration: `PreferredLocation` and
`UseMultipleWriteLocations` from `Config.RegionalOptions`. -/
structure RegionalOptions where
  PreferredLocation : String
  UseMultipleWriteLocations : Bool
  deriving DecidableEq, Repr

/-- Embeds the part of the Go `Config` the engine consults. -/
structure Config where
  RetryOptions : RetryOptions
  RegionalOptions : RegionalOptions
  deriving DecidableEq, Repr

/-- Embeds the mutable endpoint-registry part of the Go `Client`:
the default endpoint and the ordered read/write location lists. -/
structure ClientState where
  DefaultEndpoint : CosmosEndpoint
  ReadLocations : List CosmosEndpoint
  WriteLocations : List CosmosEndpoint
  deriving DecidableEq, Repr

/-- Embeds `EndpointType`; `EndpointType_ReadOnly` and
`EndpointType_ReadWrite` in the Go source. -/
inductive EndpointType where
  | ReadOnly
  | ReadWrite
  deriving DecidableEq, Repr

/-- Embeds the Go struct `EndpointDescription` decoded from the
region-discovery response. -/
structure EndpointDescription where
  ReadableLocations : List CosmosEndpoint
  WritableLocations : List CosmosEndpoint
  deriving DecidableEq, Repr

/-- Embeds `markEndpointUnavailable`: a no-op on the default endpoint,
otherwise sets `IsUnavailable` and stamps `UnavailableTimestamp` with the
current Unix time (`now` makes the Go `time.Now().Unix()` explicit). -/
def markEndpointUnavailable (now : Int) (e : CosmosEndpoint) : CosmosEndpoint :=
  if e.IsDefaultEndpoint then e
  else { e with IsUnavailable := true, UnavailableTimestamp := now }

/-- Embeds `shouldRetry`.  Returns the retry decision together with the
(possibly quarantined) endpoint, making the mutation through the Go
endpoint pointer explicit. -/
def shouldRetry (cfg : Config) (now : Int) (statusCode : Int)
    (currentAttempt : Int) (currentEndpoint : CosmosEndpoint) :
    Bool × CosmosEndpoint :=
  if statusCode ≥ 400 ∧ statusCode ≤ 413 then
    (false, currentEndpoint)
  else if currentAttempt < cfg.RetryOptions.RetryCount then
    (true, currentEndpoint)
  else if currentAttempt = cfg.RetryOptions.RetryCount ∧
      ¬ currentEndpoint.IsDefaultEndpoint then
    (false, markEndpointUnavailable now currentEndpoint)
  else
    (false, currentEndpoint)

/-- Embeds the per-endpoint body of `purgeStaleEndpointUnavailability`:
an unavailable endpoint whose quarantine is older than
`EndpointUnavailableTimeSec` is made available again and its timestamp
cleared. -/
def purgeEndpoint (cfg : Config) (now : Int) (e : CosmosEndpoint) : CosmosEndpoint :=
  if e.IsUnavailable then
    if now - e.UnavailableTimestamp > cfg.RetryOptions.EndpointUnavailableTimeSec then
      { e with IsUnavailable := false, UnavailableTimestamp := 0 }
    else e
  else e

/-- Embeds `purgeStaleEndpointUnavailability`: applies the purge step to
every endpoint of both location lists. -/
def purgeStaleEndpointUnavailability (cfg : Config) (now : Int)
    (st : ClientState) : ClientState :=
  { st with
    ReadLocations := st.ReadLocations.map (purgeEndpoint cfg now),
    WriteLocations := st.WriteLocations.map (purgeEndpoint cfg now) }

/-- Embeds the `EndpointType_ReadOnly` scan of `getCosmosEndpoint`:
first endpoint of the list that is not unavailable. -/
def scanReadLocations : List CosmosEndpoint → Option CosmosEndpoint
  | [] => none
  | e :: rest => if ¬ e.IsUnavailable then some e else scanReadLocations rest

/-- Embeds the `EndpointType_ReadWrite` scan of `getCosmosEndpoint`:
first endpoint that is not unavailable, the
`UseMultipleWriteLocations` flag being checked inside the loop condition
exactly as in the source. -/
def scanWriteLocations (cfg : Config) : List CosmosEndpoint → Option CosmosEndpoint
  | [] => none
  | e :: rest =>
    if ¬ e.IsUnavailable ∧ cfg.RegionalOptions.UseMultipleWriteLocations then some e
    else scanWriteLocations cfg rest

/-- Embeds `getCosmosEndpoint`: purges stale unavailability, scans the
list selected by the endpoint type and falls back on the default
endpoint.  Returns the updated state together with the chosen
endpoint. -/
def getCosmosEndpoint (cfg : Config) (now : Int) (st : ClientState)
    (endpointType : EndpointType) : ClientState × CosmosEndpoint :=
  let st := purgeStaleEndpointUnavailability cfg now st
  let picked :=
    match endpointType with
    | .ReadOnly => scanReadLocations st.ReadLocations
    | .ReadWrite => scanWriteLocations cfg st.WriteLocations
  (st, picked.getD st.DefaultEndpoint)

/-- The error the `do` loop surfaces to the caller: the transport-level
error of an attempt (Go `c.Do` returned a non-nil `err`), or the
`RequestError` decoded from the body of an attempt whose status failed the
validator.  The attempt number records which attempt the error came
from. -/
inductive DoErr where
  | transportErr (attempt : Int)
  | requestErr (attempt : Int)
  deriving DecidableEq, Repr

/-- Outcome of the `do` loop: success on a given attempt, or the last
classified error. -/
inductive DoOutcome where
  | success (attempt : Int)
  | failure (err : DoErr)
  deriving DecidableEq, Repr

/-- Embeds the retry loop of the private `do` method.  `transport` maps an
attempt number to `none` (transport failure) or `some s` (response with
status `s`); `currentAttempt` and `responseStatusCode` carry the two Go
loop variables (initially `0`); `fuel` bounds the recursion and is an
artifact of the embedding (`none` means the bound was hit).  Returns the
outcome, the final endpoint state, and the value of `currentAttempt` when
the loop ended — the number of attempts performed. -/
def doLoop (cfg : Config) (now : Int) (validator : Int → Bool)
    (transport : Int → Option Int) (endpoint : CosmosEndpoint)
    (currentAttempt : Int) (responseStatusCode : Int) :
    Nat → Option (DoOutcome × CosmosEndpoint × Int)
  | 0 => none
  | fuel + 1 =>
    let attempt := currentAttempt + 1
    match transport attempt with
    | some s =>
      if validator s then some (.success attempt, endpoint, attempt)
      else
        let (retry, e') := shouldRetry cfg now s attempt endpoint
        if retry then doLoop cfg now validator transport e' attempt s fuel
        else some (.failure (.requestErr attempt), e', attempt)
    | none =>
      let (retry, e') := shouldRetry cfg now responseStatusCode attempt endpoint
      if retry then
        doLoop cfg now validator transport e' attempt responseStatusCode fuel
      else some (.failure (.transportErr attempt), e', attempt)

/-- Embeds the private `do` method: runs the retry loop from
`currentAttempt = 0` and `responseStatusCode = 0`. -/
def doRequest (cfg : Config) (now : Int) (validator : Int → Bool)
    (transport : Int → Option Int) (endpoint : CosmosEndpoint)
    (fuel : Nat) : Option (DoOutcome × CosmosEndpoint × Int) :=
  doLoop cfg now validator transport endpoint 0 0 fuel

/-- Embeds the body of the Go `for i, loc := range list` reordering loops
of `GetRegionalEndpoints`: `full` is the discovered list, `i` the index of
the head of `pending`, and `acc` the registry list built so far.  A match
of the preferred location overwrites `acc` with
`full[i] :: full[:i] ++ full[i+1:]`. -/
def reorderAux (prefLoc : String) (full : List CosmosEndpoint) :
    Nat → List CosmosEndpoint → List CosmosEndpoint → List CosmosEndpoint
  | _, acc, [] => acc
  | i, acc, loc :: rest =>
    reorderAux prefLoc full (i + 1)
      (if loc.EndpointName = prefLoc then
        loc :: (full.take i ++ full.drop (i + 1))
      else acc)
      rest

/-- Embeds one reordering pass of `GetRegionalEndpoints`: the registry
list starts as the discovered list wholesale, then every entry whose name
equals the preferred location overwrites it with that entry moved to the
front. -/
def reorderPreferred (prefLoc : String) (locs : List CosmosEndpoint) :
    List CosmosEndpoint :=
  reorderAux prefLoc locs 0 locs locs

/-- Embeds `GetRegionalEndpoints`.  The discovery request is the `do` call
against the default endpoint with the `expectStatusCode(http.StatusOK)`
validator; `desc` models the `EndpointDescription` the response body
decodes to on success.  On failure the error is returned and only the
default endpoint (mutated through its pointer by the `do` loop) can have
changed; on success both location lists are replaced and reordered. -/
def GetRegionalEndpoints (cfg : Config) (now : Int)
    (transport : Int → Option Int) (desc : EndpointDescription)
    (fuel : Nat) (st : ClientState) :
    Option (ClientState × Option DoErr) :=
  match doRequest cfg now (fun s => s = 200) transport st.DefaultEndpoint fuel with
  | none => none
  | some (.failure err, e', _) =>
    some ({ st with DefaultEndpoint := e' }, some err)
  | some (.success _, e', _) =>
    let prefLoc := cfg.RegionalOptions.PreferredLocation
    some ({ st with
      DefaultEndpoint := e',
      ReadLocations := reorderPreferred prefLoc desc.ReadableLocations,
      WriteLocations := reorderPreferred prefLoc desc.WritableLocations }, none)

/-- A reference to an endpoint of the registry, standing for the Go
pointer `markEndpointUnavailable` and the `do` loop mutate through:
the default endpoint or an index into one of the lists. -/
inductive EndpointRef where
  | default
  | read (i : Nat)
  | write (i : Nat)
  deriving DecidableEq, Repr

/-- Replaces the element at index `i`, embedding a Go in-place update of a
slice element. -/
def modifyIdx (f : CosmosEndpoint → CosmosEndpoint) :
    List CosmosEndpoint → Nat → List CosmosEndpoint
  | [], _ => []
  | e :: rest, 0 => f e :: rest
  | e :: rest, n + 1 => e :: modifyIdx f rest n

/-- Reads the endpoint an `EndpointRef` points to. -/
def ClientState.getRef (st : ClientState) : EndpointRef → Option CosmosEndpoint
  | .default => some st.DefaultEndpoint
  | .read i => st.ReadLocations[i]?
  | .write i => st.WriteLocations[i]?

/-- Applies an endpoint-updating function through an `EndpointRef`. -/
def ClientState.setRef (st : ClientState)
    (f : CosmosEndpoint → CosmosEndpoint) : EndpointRef → ClientState
  | .default => { st with DefaultEndpoint := f st.DefaultEndpoint }
  | .read i => { st with ReadLocations := modifyIdx f st.ReadLocations i }
  | .write i => { st with WriteLocations := modifyIdx f st.WriteLocations i }

/-- One registry-level operation of the engine: quarantining the endpoint
a reference points to, a stale-unavailability purge, an endpoint
selection, or a whole request execution (the `do` retry loop run against
the referenced endpoint, writing the endpoint back through the
reference). -/
inductive Op where
  | quarantine (ref : EndpointRef) (now : Int)
  | purge (now : Int)
  | select (ty : EndpointType) (now : Int)
  | request (ref : EndpointRef) (now : Int) (validator : Int → Bool)
      (transport : Int → Option Int) (fuel : Nat)

/-- Applies one operation to the registry state. -/
def applyOp (cfg : Config) (st : ClientState) : Op → ClientState
  | .quarantine ref now => st.setRef (markEndpointUnavailable now) ref
  | .purge now => purgeStaleEndpointUnavailability cfg now st
  | .select ty now => (getCosmosEndpoint cfg now st ty).1
  | .request ref now validator transport fuel =>
    match st.getRef ref with
    | none => st
    | some e =>
      match doRequest cfg now validator transport e fuel with
      | none => st
      | some (_, e', _) => st.setRef (fun _ => e') ref

/-! Helper lemmas. -/

/-- The purge step never touches an available endpoint. -/
theorem purgeEndpoint_of_available (cfg : Config) (now : Int)
    (e : CosmosEndpoint) (h : e.IsUnavailable = false) :
    purgeEndpoint cfg now e = e := by
  simp [purgeEndpoint, h]

/-- The purge step is idempotent on a single endpoint. -/
theorem purgeEndpoint_idem (cfg : Config) (now : Int) (e : CosmosEndpoint) :
    purgeEndpoint cfg now (purgeEndpoint cfg now e) = purgeEndpoint cfg now e := by
  by_cases h1 : e.IsUnavailable
  · by_cases h2 :
      now - e.UnavailableTimestamp > cfg.RetryOptions.EndpointUnavailableTimeSec
    · simp [purgeEndpoint, h1, h2]
    · simp [purgeEndpoint, h1, h2]
  · simp [purgeEndpoint, h1]

/-- Mapping an idempotent endpoint transformation twice over a list is the
same as mapping it once. -/
theorem map_purgeEndpoint_idem (cfg : Config) (now : Int) :
    ∀ l : List CosmosEndpoint,
      (l.map (purgeEndpoint cfg now)).map (purgeEndpoint cfg now) =
        l.map (purgeEndpoint cfg now)
  | [] => rfl
  | e :: rest => by
    simp only [List.map_cons, purgeEndpoint_idem,
      map_purgeEndpoint_idem cfg now rest]

/-! Claim C1. -/

/-- C1: for every status code in [400, 413], every attempt count and every
endpoint, `shouldRetry` returns false and leaves the endpoint untouched;
consequently the `do` loop, on an attempt whose response carries such a
status and fails the validator, stops at that very attempt and surfaces
the error decoded from it. -/
theorem shouldRetry_never_retries_400_413 :
    (∀ (cfg : Config) (now s a : Int) (e : CosmosEndpoint),
      400 ≤ s → s ≤ 413 → shouldRetry cfg now s a e = (false, e)) ∧
    (∀ (cfg : Config) (now : Int) (validator : Int → Bool)
        (transport : Int → Option Int) (e : CosmosEndpoint)
        (att rsc s : Int) (fuel : Nat),
      transport (att + 1) = some s → validator s = false →
      400 ≤ s → s ≤ 413 →
      doLoop cfg now validator transport e att rsc (fuel + 1) =
        some (.failure (.requestErr (att + 1)), e, att + 1)) := by
  have hsr : ∀ (cfg : Config) (now s a : Int) (e : CosmosEndpoint),
      400 ≤ s → s ≤ 413 → shouldRetry cfg now s a e = (false, e) := by
    intro cfg now s a e h1 h2
    simp [shouldRetry, h1, h2]
  refine ⟨hsr, ?_⟩
  intro cfg now validator transport e att rsc s fuel htr hval h1 h2
  simp [doLoop, htr, hval, hsr cfg now s (att + 1) e h1 h2]

/-- Witness for C1 at status 409, attempt 1. -/
theorem shouldRetry_never_retries_400_413_witness :
    shouldRetry ⟨⟨3, 60⟩, ⟨"westus", true⟩⟩ 7 409 1
        ⟨"eastus", "http://e", false, false, 0⟩ =
      (false, ⟨"eastus", "http://e", false, false, 0⟩) ∧
    doLoop ⟨⟨3, 60⟩, ⟨"westus", true⟩⟩ 7 (fun s => s = 200)
        (fun _ => some 409) ⟨"eastus", "http://e", false, false, 0⟩ 0 0 4 =
      some (.failure (.requestErr 1), ⟨"eastus", "http://e", false, false, 0⟩, 1) :=
  ⟨shouldRetry_never_retries_400_413.1 ⟨⟨3, 60⟩, ⟨"westus", true⟩⟩ 7 409 1
      ⟨"eastus", "http://e", false, false, 0⟩ (by decide) (by decide),
    shouldRetry_never_retries_400_413.2 ⟨⟨3, 60⟩, ⟨"westus", true⟩⟩ 7
      (fun s => s = 200) (fun _ => some 409)
      ⟨"eastus", "http://e", false, false, 0⟩ 0 0 409 3 rfl (by decide)
      (by decide) (by decide)⟩

/-! Claim C2. -/

/-- C2: for every status code outside [400, 413] (status 0 of a transport
failure included) and every endpoint, `shouldRetry` returns true exactly
when the attempt count is strictly below the configured `RetryCount`. -/
theorem shouldRetry_outside_400_413_iff_attempt_lt_retryCount
    (cfg : Config) (now s a : Int) (e : CosmosEndpoint)
    (h : s < 400 ∨ 413 < s) :
    (shouldRetry cfg now s a e).1 =
      decide (a < cfg.RetryOptions.RetryCount) := by
  have h₁ : ¬ (s ≥ 400 ∧ s ≤ 413) := by omega
  by_cases h₂ : a < cfg.RetryOptions.RetryCount
  · simp [shouldRetry, h₁, h₂]
  · simp only [shouldRetry, if_neg h₁, if_neg h₂, decide_eq_false h₂]
    split <;> rfl

/-- Witness for C2 at status 0 (transport failure) and status 503, on both
sides of the retry budget. -/
theorem shouldRetry_outside_400_413_iff_attempt_lt_retryCount_witness :
    (shouldRetry ⟨⟨3, 60⟩, ⟨"westus", true⟩⟩ 7 0 1
        ⟨"eastus", "http://e", false, false, 0⟩).1 = decide ((1 : Int) < 3) ∧
    (shouldRetry ⟨⟨3, 60⟩, ⟨"westus", true⟩⟩ 7 503 3
        ⟨"eastus", "http://e", false, false, 0⟩).1 = decide ((3 : Int) < 3) :=
  ⟨shouldRetry_outside_400_413_iff_attempt_lt_retryCount
      ⟨⟨3, 60⟩, ⟨"westus", true⟩⟩ 7 0 1
      ⟨"eastus", "http://e", false, false, 0⟩ (Or.inl (by decide)),
    shouldRetry_outside_400_413_iff_attempt_lt_retryCount
      ⟨⟨3, 60⟩, ⟨"westus", true⟩⟩ 7 503 3
      ⟨"eastus", "http://e", false, false, 0⟩ (Or.inr (by decide))⟩

/-! Claim C6. -/

/-- C6 counterexample: an endpoint quarantined at T = 0 with cooldown
C = 5 is still quarantined by a purge at time 5 = T + C, although the
claim requires every purge at time ≥ T + C to restore it: the source
compares with a strict `>`. -/
theorem purge_at_exactly_T_plus_C_leaves_quarantined :
    (5 : Int) ≥ 0 + (5 : Int) ∧
    (purgeStaleEndpointUnavailability ⟨⟨3, 5⟩, ⟨"westus", true⟩⟩ 5
        ⟨⟨"main", "http://d", true, false, 0⟩,
          [⟨"eastus", "http://e", false, true, 0⟩], []⟩).ReadLocations =
      [⟨"eastus", "http://e", false, true, 0⟩] := by
  constructor
  · decide
  · rfl

/-- C6 as amended: for an endpoint quarantined at time T with cooldown C,
a purge at time strictly greater than T + C resets `IsUnavailable` and
clears the timestamp, and a purge at time ≤ T + C (the boundary T + C
included) leaves it quarantined unchanged. -/
theorem purgeStale_restores_iff_strictly_past_cooldown
    (cfg : Config) (now T : Int) (e : CosmosEndpoint) (st : ClientState)
    (i : Nat) (hU : e.IsUnavailable = true) (hT : e.UnavailableTimestamp = T)
    (hi : st.ReadLocations[i]? = some e) :
    (purgeStaleEndpointUnavailability cfg now st).ReadLocations[i]? =
      some (purgeEndpoint cfg now e) ∧
    (now > T + cfg.RetryOptions.EndpointUnavailableTimeSec →
      purgeEndpoint cfg now e =
        { e with IsUnavailable := false, UnavailableTimestamp := 0 }) ∧
    (now ≤ T + cfg.RetryOptions.EndpointUnavailableTimeSec →
      purgeEndpoint cfg now e = e) := by
  refine ⟨?_, ?_, ?_⟩
  · simp [purgeStaleEndpointUnavailability, hi]
  · intro h
    have hc : now - e.UnavailableTimestamp >
        cfg.RetryOptions.EndpointUnavailableTimeSec := by omega
    simp [purgeEndpoint, hU, hc]
  · intro h
    have hc : ¬ (now - e.UnavailableTimestamp >
        cfg.RetryOptions.EndpointUnavailableTimeSec) := by omega
    simp [purgeEndpoint, hU, hc]

/-- Witness for the amended C6: cooldown 5, quarantine at 0, purge at 6
restores, purge at 5 does not. -/
theorem purgeStale_restores_iff_strictly_past_cooldown_witness :
    ((purgeStaleEndpointUnavailability ⟨⟨3, 5⟩, ⟨"westus", true⟩⟩ 6
        ⟨⟨"main", "http://d", true, false, 0⟩,
          [⟨"eastus", "http://e", false, true, 0⟩], []⟩).ReadLocations[0]? =
      some (purgeEndpoint ⟨⟨3, 5⟩, ⟨"westus", true⟩⟩ 6
        ⟨"eastus", "http://e", false, true, 0⟩)) ∧
    ((6 : Int) > 0 + (5 : Int) →
      purgeEndpoint ⟨⟨3, 5⟩, ⟨"westus", true⟩⟩ 6
          ⟨"eastus", "http://e", false, true, 0⟩ =
        ⟨"eastus", "http://e", false, false, 0⟩) ∧
    ((6 : Int) ≤ 0 + (5 : Int) →
      purgeEndpoint ⟨⟨3, 5⟩, ⟨"westus", true⟩⟩ 6
          ⟨"eastus", "http://e", false, true, 0⟩ =
        ⟨"eastus", "http://e", false, true, 0⟩) :=
  purgeStale_restores_iff_strictly_past_cooldown
    ⟨⟨3, 5⟩, ⟨"westus", true⟩⟩ 6 0
    ⟨"eastus", "http://e", false, true, 0⟩
    ⟨⟨"main", "http://d", true, false, 0⟩,
      [⟨"eastus", "http://e", false, true, 0⟩], []⟩
    0 rfl rfl rfl

/-! Claim C10. -/

/-- C10: at a fixed observation time the stale-quarantine purge is
idempotent on the whole registry state, and on a single endpoint it never
turns `IsUnavailable` from false to true — it only ever clears
unavailability. -/
theorem purgeStale_idempotent_and_monotone :
    (∀ (cfg : Config) (now : Int) (st : ClientState),
      purgeStaleEndpointUnavailability cfg now
          (purgeStaleEndpointUnavailability cfg now st) =
        purgeStaleEndpointUnavailability cfg now st) ∧
    (∀ (cfg : Config) (now : Int) (e : CosmosEndpoint),
      (purgeEndpoint cfg now e).IsUnavailable = true →
        e.IsUnavailable = true) := by
  constructor
  · intro cfg now st
    simp only [purgeStaleEndpointUnavailability]
    rw [map_purgeEndpoint_idem, map_purgeEndpoint_idem]
  · intro cfg now e h
    by_cases h1 : e.IsUnavailable
    · exact h1
    · rw [purgeEndpoint_of_available cfg now e (eq_false_of_ne_true h1)] at h
      exact absurd h h1

/-- Witness for C10: idempotence on a two-endpoint registry, and
monotonicity at a quarantined endpoint past its cooldown. -/
theorem purgeStale_idempotent_and_monotone_witness :
    (purgeStaleEndpointUnavailability ⟨⟨3, 5⟩, ⟨"westus", true⟩⟩ 100
        (purgeStaleEndpointUnavailability ⟨⟨3, 5⟩, ⟨"westus", true⟩⟩ 100
          ⟨⟨"main", "http://d", true, false, 0⟩,
            [⟨"eastus", "http://e", false, true, 0⟩],
            [⟨"westus", "http://w", false, true, 99⟩]⟩) =
      purgeStaleEndpointUnavailability ⟨⟨3, 5⟩, ⟨"westus", true⟩⟩ 100
        ⟨⟨"main", "http://d", true, false, 0⟩,
          [⟨"eastus", "http://e", false, true, 0⟩],
          [⟨"westus", "http://w", false, true, 99⟩]⟩) ∧
    ((purgeEndpoint ⟨⟨3, 5⟩, ⟨"westus", true⟩⟩ 100
        ⟨"eastus", "http://e", false, true, 98⟩).IsUnavailable = true →
      (true : Bool) = true) :=
  ⟨purgeStale_idempotent_and_monotone.1 ⟨⟨3, 5⟩, ⟨"westus", true⟩⟩ 100
      ⟨⟨"main", "http://d", true, false, 0⟩,
        [⟨"eastus", "http://e", false, true, 0⟩],
        [⟨"westus", "http://w", false, true, 99⟩]⟩,
    fun h => purgeStale_idempotent_and_monotone.2
      ⟨⟨3, 5⟩, ⟨"westus", true⟩⟩ 100
      ⟨"eastus", "http://e", false, true, 98⟩ h⟩

/-! Claim C4. -/

/-- The read-list scan of `getCosmosEndpoint` is the first-match search. -/
theorem scanReadLocations_eq_find :
    ∀ l : List CosmosEndpoint,
      scanReadLocations l = l.find? (fun e => !e.IsUnavailable)
  | [] => rfl
  | e :: rest => by
    by_cases h : e.IsUnavailable
    · simp [scanReadLocations, h, scanReadLocations_eq_find rest]
    · simp [scanReadLocations, h]

/-- The write-list scan of `getCosmosEndpoint` is the first-match search
when multiple write locations are enabled, and finds nothing when they are
disabled. -/
theorem scanWriteLocations_eq_find (cfg : Config) :
    ∀ l : List CosmosEndpoint,
      scanWriteLocations cfg l =
        if cfg.RegionalOptions.UseMultipleWriteLocations then
          l.find? (fun e => !e.IsUnavailable)
        else none
  | [] => by cases cfg.RegionalOptions.UseMultipleWriteLocations <;>
      simp [scanWriteLocations]
  | e :: rest => by
    by_cases hm : cfg.RegionalOptions.UseMultipleWriteLocations
    · by_cases h : e.IsUnavailable
      · simp [scanWriteLocations, h, hm, scanWriteLocations_eq_find cfg rest]
      · simp [scanWriteLocations, h, hm]
    · simp [scanWriteLocations, hm, scanWriteLocations_eq_find cfg rest]

/-- C4: `getCosmosEndpoint` first runs the stale-quarantine purge (the
returned state is exactly the purged state, for both intents); for
`ReadOnly` it yields the first endpoint of the purged read list whose
`IsUnavailable` is false, falling back on the default endpoint; for
`ReadWrite` it does the same over the purged write list only when
`UseMultipleWriteLocations` is enabled, and yields the default endpoint
when the flag is disabled or no eligible endpoint exists. -/
theorem getCosmosEndpoint_purges_then_picks_first_available
    (cfg : Config) (now : Int) (st : ClientState) :
    (getCosmosEndpoint cfg now st .ReadOnly).1 =
      purgeStaleEndpointUnavailability cfg now st ∧
    (getCosmosEndpoint cfg now st .ReadWrite).1 =
      purgeStaleEndpointUnavailability cfg now st ∧
    (getCosmosEndpoint cfg now st .ReadOnly).2 =
      (((purgeStaleEndpointUnavailability cfg now st).ReadLocations.find?
          (fun e => !e.IsUnavailable)).getD st.DefaultEndpoint) ∧
    (getCosmosEndpoint cfg now st .ReadWrite).2 =
      (if cfg.RegionalOptions.UseMultipleWriteLocations then
        (((purgeStaleEndpointUnavailability cfg now st).WriteLocations.find?
            (fun e => !e.IsUnavailable)).getD st.DefaultEndpoint)
      else st.DefaultEndpoint) := by
  refine ⟨rfl, rfl, ?_, ?_⟩
  · simp [getCosmosEndpoint, scanReadLocations_eq_find,
      purgeStaleEndpointUnavailability]
  · by_cases hm : cfg.RegionalOptions.UseMultipleWriteLocations
    · simp [getCosmosEndpoint, scanWriteLocations_eq_find, hm,
        purgeStaleEndpointUnavailability]
    · simp [getCosmosEndpoint, scanWriteLocations_eq_find, hm,
        purgeStaleEndpointUnavailability]

/-! Claim C7. -/

/-- A reordering pass over entries none of which matches the preferred
location leaves the accumulated list untouched. -/
theorem reorderAux_no_match (prefLoc : String) (full : List CosmosEndpoint) :
    ∀ (pending : List CosmosEndpoint) (i : Nat) (acc : List CosmosEndpoint),
      (∀ x ∈ pending, x.EndpointName ≠ prefLoc) →
      reorderAux prefLoc full i acc pending = acc
  | [], _, _, _ => rfl
  | loc :: rest, i, acc, h => by
    have hloc : loc.EndpointName ≠ prefLoc := h loc (List.mem_cons_self loc rest)
    rw [reorderAux, if_neg hloc]
    exact reorderAux_no_match prefLoc full rest (i + 1) acc
      (fun x hx => h x (List.mem_cons_of_mem loc hx))

/-- A reordering pass skips over a non-matching block, advancing the index
by its length. -/
theorem reorderAux_skip (prefLoc : String) (full : List CosmosEndpoint) :
    ∀ (p₁ rest : List CosmosEndpoint) (i : Nat) (acc : List CosmosEndpoint),
      (∀ x ∈ p₁, x.EndpointName ≠ prefLoc) →
      reorderAux prefLoc full i acc (p₁ ++ rest) =
        reorderAux prefLoc full (i + p₁.length) acc rest
  | [], rest, i, acc, _ => rfl
  | loc :: p₁, rest, i, acc, h => by
    have hloc : loc.EndpointName ≠ prefLoc := h loc (List.mem_cons_self loc p₁)
    rw [List.cons_append, reorderAux, if_neg hloc,
      reorderAux_skip prefLoc full p₁ rest (i + 1) acc
        (fun x hx => h x (List.mem_cons_of_mem loc hx))]
    congr 1
    simp only [List.length_cons]
    omega

/-- Taking the length of the left part of an append returns it. -/
theorem take_length_append (l₁ l₂ : List CosmosEndpoint) :
    (l₁ ++ l₂).take l₁.length = l₁ := by
  induction l₁ with
  | nil => rfl
  | cons x xs ih => simp [List.take, ih]

/-- Dropping one past the length of the left part of an append around a
single element returns the right part. -/
theorem drop_length_succ_append (l₁ l₂ : List CosmosEndpoint)
    (e : CosmosEndpoint) :
    (l₁ ++ e :: l₂).drop (l₁.length + 1) = l₂ := by
  induction l₁ with
  | nil => rfl
  | cons x xs ih => simp [List.drop, ih]

/-- C7: when exactly one discovered entry matches the preferred location,
at index `l₁.length` in `l₁ ++ e :: l₂`, the reordered list is that entry
followed by the remaining entries in their original relative order; when
no entry matches, the list is unchanged; and on a successful discovery
`GetRegionalEndpoints` stores exactly these reordered lists. -/
theorem reorder_moves_unique_preferred_to_front :
    (∀ (prefLoc : String) (l₁ l₂ : List CosmosEndpoint) (e : CosmosEndpoint),
      e.EndpointName = prefLoc →
      (∀ x ∈ l₁, x.EndpointName ≠ prefLoc) →
      (∀ x ∈ l₂, x.EndpointName ≠ prefLoc) →
      reorderPreferred prefLoc (l₁ ++ e :: l₂) = e :: (l₁ ++ l₂)) ∧
    (∀ (prefLoc : String) (locs : List CosmosEndpoint),
      (∀ x ∈ locs, x.EndpointName ≠ prefLoc) →
      reorderPreferred prefLoc locs = locs) ∧
    (∀ (cfg : Config) (now : Int) (transport : Int → Option Int)
        (desc : EndpointDescription) (fuel : Nat) (st st' : ClientState),
      GetRegionalEndpoints cfg now transport desc fuel st = some (st', none) →
      st'.ReadLocations =
        reorderPreferred cfg.RegionalOptions.PreferredLocation
          desc.ReadableLocations ∧
      st'.WriteLocations =
        reorderPreferred cfg.RegionalOptions.PreferredLocation
          desc.WritableLocations) := by
  refine ⟨?_, ?_, ?_⟩
  · intro prefLoc l₁ l₂ e he h₁ h₂
    unfold reorderPreferred
    rw [reorderAux_skip prefLoc (l₁ ++ e :: l₂) l₁ (e :: l₂) 0 (l₁ ++ e :: l₂) h₁,
      reorderAux, if_pos he,
      reorderAux_no_match prefLoc (l₁ ++ e :: l₂) l₂ _ _ h₂,
      Nat.zero_add, take_length_append l₁ (e :: l₂),
      drop_length_succ_append l₁ l₂ e]
  · intro prefLoc locs h
    exact reorderAux_no_match prefLoc locs locs 0 locs h
  · intro cfg now transport desc fuel st st' h
    unfold GetRegionalEndpoints at h
    rcases hdo : doRequest cfg now (fun s => s = 200) transport
        st.DefaultEndpoint fuel with _ | ⟨outcome, efin, n⟩
    · rw [hdo] at h; exact absurd h (by simp)
    · rw [hdo] at h
      cases outcome with
      | success a =>
        simp only [Option.some.injEq, Prod.ext_iff] at h
        rw [← h.1]
        exact ⟨rfl, rfl⟩
      | failure err => simp at h

/-- Witness for C7 on a three-entry list with the unique match in the
middle, an unmatched list, and a successful discovery call. -/
theorem reorder_moves_unique_preferred_to_front_witness :
    reorderPreferred "b"
        ([⟨"a", "ua", false, false, 0⟩] ++ ⟨"b", "ub", false, false, 0⟩ ::
          [⟨"c", "uc", false, false, 0⟩]) =
      ⟨"b", "ub", false, false, 0⟩ ::
        ([⟨"a", "ua", false, false, 0⟩] ++ [⟨"c", "uc", false, false, 0⟩]) ∧
    reorderPreferred "z"
        [⟨"a", "ua", false, false, 0⟩, ⟨"c", "uc", false, false, 0⟩] =
      [⟨"a", "ua", false, false, 0⟩, ⟨"c", "uc", false, false, 0⟩] :=
  ⟨reorder_moves_unique_preferred_to_front.1 "b"
      [⟨"a", "ua", false, false, 0⟩] [⟨"c", "uc", false, false, 0⟩]
      ⟨"b", "ub", false, false, 0⟩ rfl (by decide) (by decide),
    reorder_moves_unique_preferred_to_front.2.1 "z"
      [⟨"a", "ua", false, false, 0⟩, ⟨"c", "uc", false, false, 0⟩]
      (by decide)⟩

/-! Claim C5. -/

/-- C5: with `RetryCount = 3`, a request against a non-default endpoint
whose every attempt yields status 503 performs exactly 3 attempts (the
loop runs against the single endpoint the request was built for, so every
attempt hits it), quarantines the endpoint as a side effect of the third
attempt, and surfaces the error decoded from the third response. -/
theorem three_503_attempts_quarantine_and_third_error
    (cfg : Config) (now : Int) (validator : Int → Bool)
    (e : CosmosEndpoint) (fuel : Nat)
    (hrc : cfg.RetryOptions.RetryCount = 3)
    (hdef : e.IsDefaultEndpoint = false)
    (hval : validator 503 = false)
    (hfuel : 3 ≤ fuel) :
    doRequest cfg now validator (fun _ => some 503) e fuel =
      some (.failure (.requestErr 3),
        { e with IsUnavailable := true, UnavailableTimestamp := now }, 3) := by
  obtain ⟨f, rfl⟩ : ∃ f, fuel = f + 3 := ⟨fuel - 3, by omega⟩
  have h1 : ¬ ((503 : Int) ≥ 400 ∧ (503 : Int) ≤ 413) := by omega
  have s1 : shouldRetry cfg now 503 1 e = (true, e) := by
    rw [shouldRetry, if_neg h1, if_pos (by rw [hrc]; norm_num)]
  have s2 : shouldRetry cfg now 503 2 e = (true, e) := by
    rw [shouldRetry, if_neg h1, if_pos (by rw [hrc]; norm_num)]
  have s3 : shouldRetry cfg now 503 3 e =
      (false, { e with IsUnavailable := true, UnavailableTimestamp := now }) := by
    rw [shouldRetry, if_neg h1, if_neg (by rw [hrc]; norm_num),
      if_pos ⟨by rw [hrc], by simp [hdef]⟩, markEndpointUnavailable,
      if_neg (by simp [hdef])]
  norm_num [doRequest, doLoop, hval, s1, s2, s3]

/-- Witness for C5 at a concrete configuration and endpoint. -/
theorem three_503_attempts_quarantine_and_third_error_witness :
    doRequest ⟨⟨3, 60⟩, ⟨"westus", true⟩⟩ 100 (fun s => s = 200)
        (fun _ => some 503) ⟨"eastus", "http://e", false, false, 0⟩ 5 =
      some (.failure (.requestErr 3),
        { CosmosEndpoint.mk "eastus" "http://e" false false 0 with
          IsUnavailable := true, UnavailableTimestamp := 100 }, 3) :=
  three_503_attempts_quarantine_and_third_error
    ⟨⟨3, 60⟩, ⟨"westus", true⟩⟩ 100 (fun s => decide (s = 200))
    ⟨"eastus", "http://e", false, false, 0⟩ 5 rfl rfl (by decide) (by decide)

/-! Claim C9. -/

/-- C9: the quarantine side effect of `shouldRetry` fires only when the
attempt count equals `RetryCount` exactly — at any other attempt count the
endpoint comes back untouched — and with `RetryCount = 0` a failing
operation performs exactly one attempt (attempts start at 1, which already
exceeds the budget without ever equaling it) and leaves the endpoint
unchanged, whatever the endpoint. -/
theorem retryCount_zero_single_attempt_no_quarantine :
    (∀ (cfg : Config) (now s a : Int) (e : CosmosEndpoint),
      a ≠ cfg.RetryOptions.RetryCount → (shouldRetry cfg now s a e).2 = e) ∧
    (∀ (cfg : Config) (now : Int) (validator : Int → Bool)
        (transport : Int → Option Int) (e : CosmosEndpoint) (fuel : Nat),
      cfg.RetryOptions.RetryCount = 0 →
      (∀ s, transport 1 = some s → validator s = false) →
      ∃ err, doRequest cfg now validator transport e (fuel + 1) =
        some (.failure err, e, 1)) := by
  constructor
  · intro cfg now s a e h
    by_cases c1 : s ≥ 400 ∧ s ≤ 413
    · rw [shouldRetry, if_pos c1]
    · by_cases c2 : a < cfg.RetryOptions.RetryCount
      · rw [shouldRetry, if_neg c1, if_pos c2]
      · rw [shouldRetry, if_neg c1, if_neg c2,
          if_neg (fun hc => h hc.1)]
  · intro cfg now validator transport e fuel hrc hval
    have hone : ∀ s, shouldRetry cfg now s 1 e = (false, e) := by
      intro s
      by_cases c1 : s ≥ 400 ∧ s ≤ 413
      · rw [shouldRetry, if_pos c1]
      · rw [shouldRetry, if_neg c1, if_neg (by rw [hrc]; decide),
          if_neg (by rw [hrc]; simp)]
    rcases htr : transport 1 with _ | s
    · exact ⟨.transportErr 1, by simp [doRequest, doLoop, htr, hone]⟩
    · exact ⟨.requestErr 1, by simp [doRequest, doLoop, htr, hval s htr, hone]⟩

/-- Witness for C9: no quarantine at attempt 2 of a 3-retry budget, and a
single attempt with a zero retry budget. -/
theorem retryCount_zero_single_attempt_no_quarantine_witness :
    (shouldRetry ⟨⟨3, 60⟩, ⟨"westus", true⟩⟩ 7 503 2
        ⟨"eastus", "http://e", false, false, 0⟩).2 =
      ⟨"eastus", "http://e", false, false, 0⟩ ∧
    ∃ err, doRequest ⟨⟨0, 60⟩, ⟨"westus", true⟩⟩ 7 (fun s => s = 200)
        (fun _ => some 503) ⟨"eastus", "http://e", false, false, 0⟩ 1 =
      some (.failure err, ⟨"eastus", "http://e", false, false, 0⟩, 1) :=
  ⟨retryCount_zero_single_attempt_no_quarantine.1
      ⟨⟨3, 60⟩, ⟨"westus", true⟩⟩ 7 503 2
      ⟨"eastus", "http://e", false, false, 0⟩ (by decide),
    retryCount_zero_single_attempt_no_quarantine.2
      ⟨⟨0, 60⟩, ⟨"westus", true⟩⟩ 7 (fun s => decide (s = 200))
      (fun _ => some 503) ⟨"eastus", "http://e", false, false, 0⟩ 0 rfl
      (fun s hs => by
        have hs' : (503 : Int) = s := by injection hs
        rw [← hs']
        decide)⟩

/-! Claim C3. -/

/-- The retry decision never mutates an endpoint whose default flag is
set: every branch of `shouldRetry` hands it back unchanged. -/
theorem shouldRetry_default_fixed (cfg : Config) (now s a : Int)
    (e : CosmosEndpoint) (h : e.IsDefaultEndpoint = true) :
    (shouldRetry cfg now s a e).2 = e := by
  by_cases c1 : s ≥ 400 ∧ s ≤ 413
  · rw [shouldRetry, if_pos c1]
  · by_cases c2 : a < cfg.RetryOptions.RetryCount
    · rw [shouldRetry, if_neg c1, if_pos c2]
    · rw [shouldRetry, if_neg c1, if_neg c2, if_neg (fun hc => hc.2 h)]

/-- Quarantining an endpoint whose default flag is set is a no-op. -/
theorem markEndpointUnavailable_default (now : Int) (e : CosmosEndpoint)
    (h : e.IsDefaultEndpoint = true) :
    markEndpointUnavailable now e = e := by
  rw [markEndpointUnavailable, if_pos h]

/-- The whole retry loop hands back an endpoint whose default flag is set
unchanged, whatever the transport did. -/
theorem doLoop_default_fixed (cfg : Config) (now : Int) (v : Int → Bool)
    (tr : Int → Option Int) (e : CosmosEndpoint)
    (h : e.IsDefaultEndpoint = true) :
    ∀ (fuel : Nat) (a rsc : Int) (o : DoOutcome) (e₂ : CosmosEndpoint)
      (n : Int), doLoop cfg now v tr e a rsc fuel = some (o, e₂, n) → e₂ = e
  | 0, a, rsc, o, e₂, n, hl => by simp [doLoop] at hl
  | fuel + 1, a, rsc, o, e₂, n, hl => by
    rw [doLoop] at hl
    rcases htr : tr (a + 1) with _ | s
    · simp only [htr] at hl
      rcases hp : shouldRetry cfg now rsc (a + 1) e with ⟨retry, e₁⟩
      have he₁ : e₁ = e := by
        have h2 := shouldRetry_default_fixed cfg now rsc (a + 1) e h
        rw [hp] at h2
        exact h2
      simp only [hp] at hl
      rw [he₁] at hl
      cases retry
      · simp only [Bool.false_eq_true, if_false, Option.some.injEq,
          Prod.mk.injEq] at hl
        exact hl.2.1.symm
      · rw [if_pos rfl] at hl
        exact doLoop_default_fixed cfg now v tr e h fuel (a + 1) rsc o e₂ n hl
    · simp only [htr] at hl
      by_cases hv : v s
      · rw [if_pos hv] at hl
        simp only [Option.some.injEq, Prod.mk.injEq] at hl
        exact hl.2.1.symm
      · rw [if_neg hv] at hl
        rcases hp : shouldRetry cfg now s (a + 1) e with ⟨retry, e₁⟩
        have he₁ : e₁ = e := by
          have h2 := shouldRetry_default_fixed cfg now s (a + 1) e h
          rw [hp] at h2
          exact h2
        simp only [hp] at hl
        rw [he₁] at hl
        cases retry
        · simp only [Bool.false_eq_true, if_false, Option.some.injEq,
            Prod.mk.injEq] at hl
          exact hl.2.1.symm
        · rw [if_pos rfl] at hl
          exact doLoop_default_fixed cfg now v tr e h fuel (a + 1) s o e₂ n hl

/-- No registry operation moves the default endpoint, as long as its
default flag is set. -/
theorem applyOp_default_fixed (cfg : Config) (st : ClientState) (op : Op)
    (h : st.DefaultEndpoint.IsDefaultEndpoint = true) :
    (applyOp cfg st op).DefaultEndpoint = st.DefaultEndpoint := by
  cases op with
  | quarantine ref now =>
    cases ref with
    | default =>
      simp only [applyOp, ClientState.setRef]
      exact markEndpointUnavailable_default now st.DefaultEndpoint h
    | read i => rfl
    | write i => rfl
  | purge now => rfl
  | select ty now => rfl
  | request ref now v tr fuel =>
    cases ref with
    | default =>
      simp only [applyOp]
      split
      · rfl
      next e heq =>
        have he : e = st.DefaultEndpoint := by
          simp only [ClientState.getRef, Option.some.injEq] at heq
          exact heq.symm
        subst he
        split
        · rfl
        next o e₂ n hdo =>
          simp only [ClientState.setRef]
          exact doLoop_default_fixed cfg now v tr st.DefaultEndpoint h fuel
            0 0 o e₂ n hdo
    | read i =>
      simp only [applyOp]
      split
      · rfl
      · split
        · rfl
        · rfl
    | write i =>
      simp only [applyOp]
      split
      · rfl
      · split
        · rfl
        · rfl

/-- Over any sequence of registry operations the default endpoint is
unchanged, as long as its default flag is set. -/
theorem foldl_applyOp_default_fixed (cfg : Config) :
    ∀ (ops : List Op) (st : ClientState),
      st.DefaultEndpoint.IsDefaultEndpoint = true →
      (ops.foldl (applyOp cfg) st).DefaultEndpoint = st.DefaultEndpoint
  | [], _, _ => rfl
  | op :: ops, st, h => by
    rw [List.foldl_cons]
    have h1 := applyOp_default_fixed cfg st op h
    rw [foldl_applyOp_default_fixed cfg ops (applyOp cfg st op)
      (by rw [h1]; exact h), h1]

/-- C3: `markEndpointUnavailable` is a no-op on an endpoint whose
`IsDefaultEndpoint` flag is set, and consequently, over every sequence of
failing requests and quarantine/purge/select operations, a default
endpoint that starts available stays available. -/
theorem default_endpoint_never_quarantined :
    (∀ (now : Int) (e : CosmosEndpoint), e.IsDefaultEndpoint = true →
      markEndpointUnavailable now e = e) ∧
    (∀ (cfg : Config) (st : ClientState) (ops : List Op),
      st.DefaultEndpoint.IsDefaultEndpoint = true →
      st.DefaultEndpoint.IsUnavailable = false →
      (ops.foldl (applyOp cfg) st).DefaultEndpoint.IsUnavailable = false) := by
  constructor
  · exact markEndpointUnavailable_default
  · intro cfg st ops hflag hun
    rw [foldl_applyOp_default_fixed cfg ops st hflag]
    exact hun

/-- Witness for C3: a concrete sequence of a failing request against the
default endpoint, an explicit quarantine of it, a purge and a selection
leaves the default endpoint available. -/
theorem default_endpoint_never_quarantined_witness :
    markEndpointUnavailable 5 ⟨"main", "http://d", true, false, 0⟩ =
      ⟨"main", "http://d", true, false, 0⟩ ∧
    ([Op.request .default 5 (fun s => s = 200) (fun _ => some 503) 4,
      Op.quarantine .default 6, Op.purge 7,
      Op.select .ReadOnly 8].foldl
        (applyOp ⟨⟨3, 60⟩, ⟨"westus", true⟩⟩)
        ⟨⟨"main", "http://d", true, false, 0⟩,
          [⟨"eastus", "http://e", false, false, 0⟩],
          []⟩).DefaultEndpoint.IsUnavailable = false :=
  ⟨default_endpoint_never_quarantined.1 5
      ⟨"main", "http://d", true, false, 0⟩ rfl,
    default_endpoint_never_quarantined.2 ⟨⟨3, 60⟩, ⟨"westus", true⟩⟩
      ⟨⟨"main", "http://d", true, false, 0⟩,
        [⟨"eastus", "http://e", false, false, 0⟩], []⟩
      [Op.request .default 5 (fun s => decide (s = 200)) (fun _ => some 503) 4,
        Op.quarantine .default 6, Op.purge 7, Op.select .ReadOnly 8]
      rfl rfl⟩

/-! Claim C8. -/

/-- C8: whenever the discovery request fails, `GetRegionalEndpoints`
surfaces the error and the stored `ReadLocations` and `WriteLocations`
are exactly what they were before the call; they are replaced only after
a successful discovery response. -/
theorem discovery_failure_leaves_registry_unchanged
    (cfg : Config) (now : Int) (transport : Int → Option Int)
    (desc : EndpointDescription) (fuel : Nat) (st st' : ClientState)
    (err : DoErr)
    (h : GetRegionalEndpoints cfg now transport desc fuel st =
      some (st', some err)) :
    st'.ReadLocations = st.ReadLocations ∧
    st'.WriteLocations = st.WriteLocations := by
  unfold GetRegionalEndpoints at h
  rcases hdo : doRequest cfg now (fun s => s = 200) transport
      st.DefaultEndpoint fuel with _ | ⟨o, e₂, n⟩ <;> rw [hdo] at h
  · exact absurd h (by simp)
  · cases o with
    | success a => simp at h
    | failure e₃ =>
      simp only [Option.some.injEq, Prod.ext_iff] at h
      rw [← h.1]
      exact ⟨rfl, rfl⟩

/-- Witness for C8: a discovery attempt answered with status 503 under a
zero retry budget fails and leaves both location lists intact. -/
theorem discovery_failure_leaves_registry_unchanged_witness :
    (⟨⟨"main", "http://d", true, false, 0⟩,
        [⟨"eastus", "http://e", false, false, 0⟩],
        [⟨"westus", "http://w", false, false, 0⟩]⟩ :
      ClientState).ReadLocations =
      (⟨⟨"main", "http://d", true, false, 0⟩,
          [⟨"eastus", "http://e", false, false, 0⟩],
          [⟨"westus", "http://w", false, false, 0⟩]⟩ :
        ClientState).ReadLocations ∧
    (⟨⟨"main", "http://d", true, false, 0⟩,
        [⟨"eastus", "http://e", false, false, 0⟩],
        [⟨"westus", "http://w", false, false, 0⟩]⟩ :
      ClientState).WriteLocations =
      (⟨⟨"main", "http://d", true, false, 0⟩,
          [⟨"eastus", "http://e", false, false, 0⟩],
          [⟨"westus", "http://w", false, false, 0⟩]⟩ :
        ClientState).WriteLocations :=
  discovery_failure_leaves_registry_unchanged
    ⟨⟨0, 60⟩, ⟨"westus", true⟩⟩ 7 (fun _ => some 503)
    ⟨[⟨"newread", "http://n", false, false, 0⟩], []⟩ 1
    ⟨⟨"main", "http://d", true, false, 0⟩,
      [⟨"eastus", "http://e", false, false, 0⟩],
      [⟨"westus", "http://w", false, false, 0⟩]⟩
    ⟨⟨"main", "http://d", true, false, 0⟩,
      [⟨"eastus", "http://e", false, false, 0⟩],
      [⟨"westus", "http://w", false, false, 0⟩]⟩
    (.requestErr 1) (by decide)

end DocumentDB
